import Mathlib

/-!
Verification of the products-service cache (src/main.py) against its
natural-language specification.

The embedding is shallow: the process-local `PRODUCTS_CACHE` dict becomes an
insertion-ordered association list (`Store`); each Flask handler becomes a
pure function from its inputs (request data, current store, and the outcome
of any remote HTTP call it makes) to its outputs (HTTP status, response
body, new store, and any background task it spawns).  Nondeterministic
runtime inputs (generated ids, timestamps, remote responses) are explicit
parameters.
-/

set_option autoImplicit false

namespace ProductsService

/-- A product record as built by `create_product` in src/main.py:
`{"id", "name", "type", "metadata", "created_at"}`.  `metadata` is an opaque
JSON object, modelled as an association list of string keys and values. -/
structure Product where
  id : String
  name : String
  type : String
  metadata : List (String × String)
  created_at : String
  deriving DecidableEq, Repr

/-- The in-memory cache `PRODUCTS_CACHE`: a Python dict, i.e. an
insertion-ordered mapping from product id to record. -/
abbrev Store := List (String × Product)

namespace Store

/-- Dict membership / item access: find the value stored under key `k`. -/
def lookup : Store → String → Option Product
  | [], _ => none
  | (k2, v) :: rest, k => if k2 = k then some v else lookup rest k

/-- Dict assignment `PRODUCTS_CACHE[k] = v`: overwrite in place when the key
exists (keeping its position, as Python dicts do), append otherwise. -/
def upsert : Store → String → Product → Store
  | [], k, v => [(k, v)]
  | (k2, v2) :: rest, k, v =>
    if k2 = k then (k, v) :: rest else (k2, v2) :: upsert rest k v

/-- Dict removal `PRODUCTS_CACHE.pop(k)`: drop the entry with key `k`,
preserving the order of the others. -/
def erase : Store → String → Store
  | [], _ => []
  | (k2, v2) :: rest, k => if k2 = k then rest else (k2, v2) :: erase rest k

/-- The view `list(PRODUCTS_CACHE.values())`: the records in insertion order. -/
def values (store : Store) : List Product := store.map Prod.snd

/-- The keys of the store, in insertion order. -/
def keys (store : Store) : List String := store.map Prod.fst

/-- A Python dict never holds the same key twice; association lists that
model dict states satisfy this invariant. -/
def NodupKeys (store : Store) : Prop := store.keys.Nodup

instance (store : Store) : Decidable store.NodupKeys := by
  unfold NodupKeys; infer_instance

end Store

/-! ## Remote-call outcomes

Each handler that talks to the database service is parameterized by the
outcome of its `requests.*` call: either an HTTP response (with status code
and, where the handler reads it, a decoded JSON body) or a raised exception.
`requests` distinguishes `Timeout` and `ConnectionError` from other
exceptions; `persist_to_database` catches them in separate branches, so its
outcome type keeps the distinction. -/

/-- Outcome of one `requests.post(DB_SERVICE_URL, ...)` call inside
`persist_to_database`: a response with a status code, or one of the caught
exception classes. -/
inductive PostOutcome where
  | response (status : Nat)
  | timeout
  | connectionError
  | otherError
  deriving DecidableEq, Repr

/-- Outcome of the `requests.get(DB_SERVICE_URL/id, timeout=2)` fallback call
inside `get_product`: a response (whose JSON body is only decoded when the
status is 200) or any raised exception. -/
inductive RemoteGet where
  | response (status : Nat) (product : Product)
  | exc
  deriving DecidableEq, Repr

/-- Outcome of the `requests.delete(DB_SERVICE_URL/id, timeout=3)` call
inside `delete_from_database`. -/
inductive RemoteDelete where
  | response (status : Nat)
  | exc
  deriving DecidableEq, Repr

/-- Outcome of the `requests.get(DB_SERVICE_URL?limit=1000, timeout=10)` call
inside `sync_cache`: a response whose JSON body carries the
`data.get("products", [])` list, or any raised exception. -/
inductive RemoteList where
  | response (status : Nat) (products : List Product)
  | exc
  deriving DecidableEq, Repr

/-! ## POST /products — create_product -/

/-- The decoded JSON body of a create request: the fields `create_product`
reads via `data.get(...)`.  A request whose body is `None` or the empty
object (both falsy in `if not data`) is modelled as `none` at the call
site. -/
structure CreateReq where
  name : Option String
  type : Option String
  metadata : Option (List (String × String))
  deriving DecidableEq, Repr

/-- Result of one `create_product` call: HTTP status, response body (the
stored record on success), the updated cache, and the argument pair of the
`persist_to_database` background thread when one was started. -/
structure CreateResult where
  status : Nat
  body : Option Product
  store : Store
  spawned : Option (String × Product)
  deriving DecidableEq, Repr

/-- Handler `create_product` (src/main.py lines 69-117).  `data = none` models a
missing/empty JSON body (`if not data`); `product_id` and `created_at` stand
for the values produced by `uuid.uuid4()` and `datetime.now()` at this
call. -/
def create_product (data : Option CreateReq) (product_id : String)
    (created_at : String) (store : Store) : CreateResult :=
  match data with
  | none => ⟨400, none, store, none⟩
  | some d =>
    match d.name with
    | none => ⟨400, none, store, none⟩
    | some n =>
      if n = "" then ⟨400, none, store, none⟩
      else
        let product_data : Product :=
          ⟨product_id, n, d.type.getD "physical", d.metadata.getD [], created_at⟩
        ⟨201, some product_data, store.upsert product_id product_data,
          some (product_id, product_data)⟩

/-! ## GET /products — list_products -/

/-- Python `l[:n]` on a list: for `n ≥ 0` the first `n` elements, for
`n < 0` everything but the last `|n|` elements. -/
def pySlice (limit : Int) (xs : List Product) : List Product :=
  if 0 ≤ limit then xs.take limit.toNat
  else xs.take (xs.length - limit.natAbs)

/-- The query parameter `request.args.get("type")` is truthy exactly when the parameter is
present and non-empty; `list_products` only filters in that case. -/
def truthy : Option String → Bool
  | none => false
  | some s => s ≠ ""

/-- Handler `list_products` (src/main.py lines 119-140).  `product_type` is the raw
`type` query parameter, `limitArg` the parsed `limit` parameter with its
default of 100 (`int(request.args.get("limit", 100))`). -/
def list_products (product_type : Option String) (limitArg : Option Int)
    (store : Store) : List Product :=
  let limit := limitArg.getD 100
  let products := store.values
  let products :=
    if truthy product_type then
      products.filter (fun p => p.type = product_type.getD "")
    else products
  pySlice limit products

/-! ## GET /products/{id} — get_product -/

/-- Result of one `get_product` call: HTTP status, response body on success,
the (possibly read-through-populated) cache, and how many remote point-get
calls were issued. -/
structure GetResult where
  status : Nat
  body : Option Product
  store : Store
  remoteCalls : Nat
  deriving DecidableEq, Repr

/-- Handler `get_product` (src/main.py lines 142-164): serve from the cache when the
id is present; otherwise issue one point-get to the database service, and on
a 200 response upsert and return the fetched record; every other outcome
falls through to a 404. -/
def get_product (product_id : String) (store : Store) (remote : RemoteGet) :
    GetResult :=
  match store.lookup product_id with
  | some p => ⟨200, some p, store, 0⟩
  | none =>
    match remote with
    | .response status p =>
      if status = 200 then ⟨200, some p, store.upsert product_id p, 1⟩
      else ⟨404, none, store, 1⟩
    | .exc => ⟨404, none, store, 1⟩

/-! ## DELETE /products/{id} — delete_product -/

/-- Result of one `delete_product` call: HTTP status, the JSON response body
as an ordered list of key/value pairs (the key names matter to the external
interface), the updated cache, and the argument of the
`delete_from_database` background thread when one was started. -/
structure DeleteResult where
  status : Nat
  body : List (String × String)
  store : Store
  spawned : Option String
  deriving DecidableEq, Repr

/-- Handler `delete_product` (src/main.py lines 166-195).  `now` stands for
`datetime.now().isoformat()` at this call. -/
def delete_product (product_id : String) (now : String) (store : Store) :
    DeleteResult :=
  match store.lookup product_id with
  | none => ⟨404, [("error", "Product not found")], store, none⟩
  | some deleted_product =>
    ⟨200,
      [("status", "deleted"), ("product_id", product_id),
       ("name", deleted_product.name), ("timestamp", now)],
      store.erase product_id, some product_id⟩

/-! ## Background task: persist_to_database -/

/-- Observable behaviour of one `persist_to_database` task: how many POST
calls it issued, the `time.sleep` durations it performed in order (seconds),
and its boolean return value. -/
structure PersistResult where
  attempts : Nat
  waits : List Nat
  success : Bool
  deriving DecidableEq, Repr

/-- The check `response.status_code in [200, 201]` — the only outcome
`persist_to_database` counts as success. -/
def postSucceeds : PostOutcome → Bool
  | .response s => s = 200 || s = 201
  | _ => false

/-- The retry loop of `persist_to_database`: `attempt` is the current
0-based loop index, `remaining` the number of iterations `range(max_retries)`
still has.  A failed non-final attempt sleeps `2 * (attempt + 1)` seconds. -/
def persistGo (remote : Nat → PostOutcome) (attempt : Nat) :
    Nat → PersistResult
  | 0 => ⟨0, [], false⟩
  | remaining + 1 =>
    if postSucceeds (remote attempt) then ⟨1, [], true⟩
    else if remaining = 0 then ⟨1, [], false⟩
    else
      let r := persistGo remote (attempt + 1) remaining
      ⟨1 + r.attempts, 2 * (attempt + 1) :: r.waits, r.success⟩

/-- Task `persist_to_database` (src/main.py lines 197-236), with
`max_retries = 3`.  `remote i` is the outcome of the POST issued on loop
iteration `i`. -/
def persist_to_database (remote : Nat → PostOutcome) : PersistResult :=
  persistGo remote 0 3

/-- The body of `persist_to_database` contains no statement that reads or
writes `PRODUCTS_CACHE`; its effect on the Entry Store is the identity,
whatever the remote outcomes are. -/
def persist_to_database_store (_remote : Nat → PostOutcome) (store : Store) :
    Store := store

/-! ## Background task: delete_from_database -/

/-- Observable behaviour of one `delete_from_database` task: number of
remote DELETE calls issued, whether an exception escaped the task, and its
effect on the Entry Store (the body never touches `PRODUCTS_CACHE`). -/
structure DeleteDbResult where
  calls : Nat
  raised : Bool
  loggedSuccess : Bool
  store : Store
  deriving DecidableEq, Repr

/-- Task `delete_from_database` (src/main.py lines 238-250): one DELETE call,
every outcome only logged (success on 200/204), nothing re-raised, no cache
access. -/
def delete_from_database (product_id : String) (remote : RemoteDelete)
    (store : Store) : DeleteDbResult :=
  match remote with
  | .response s =>
    if s = 200 ∨ s = 204 then ⟨1, false, true, store⟩
    else ⟨1, false, false, store⟩
  | .exc => ⟨1, false, false, store⟩

/-! ## POST /cache/sync — sync_cache -/

/-- Result of one `sync_cache` call: HTTP status, the `synced` and
`cache_size` fields of the JSON body (absent on the error body), and the
updated cache. -/
structure SyncResult where
  status : Nat
  synced : Option Nat
  cache_size : Option Nat
  store : Store
  deriving DecidableEq, Repr

/-- The update loop of `sync_cache`:
`for product in products: PRODUCTS_CACHE[product["id"]] = product`. -/
def syncMerge (products : List Product) (store : Store) : Store :=
  products.foldl (fun s p => s.upsert p.id p) store

/-- Handler `sync_cache` (src/main.py lines 252-279): on a 200 response each fetched
product is written into the cache under its `id`; on any other status the
function falls through to the final `return` (HTTP 200, `synced: 0`); an
exception from the remote call yields the 500 error body. -/
def sync_cache (remote : RemoteList) (store : Store) : SyncResult :=
  match remote with
  | .exc => ⟨500, none, none, store⟩
  | .response status products =>
    if status = 200 then
      let store2 := syncMerge products store
      ⟨200, some products.length, some store2.length, store2⟩
    else ⟨200, some 0, some store.length, store⟩

/-! ## Helper definitions for the statements below -/

/-- The filtering stage of `list_products`, before the `[:limit]` slice:
the cache values, restricted to a `type` match when the `type` query
parameter is truthy. -/
def filteredEntries (product_type : Option String) (store : Store) :
    List Product :=
  if truthy product_type then
    store.values.filter (fun p => p.type = product_type.getD "")
  else store.values

/-- A concrete record used by witnesses and counterexamples. -/
def pWidget : Product :=
  ⟨"prod_1", "Widget", "physical", [], "2026-01-01T00:00:00"⟩

/-- A second concrete record, with a different `type`. -/
def pGadget : Product :=
  ⟨"prod_2", "Gadget", "digital", [], "2026-01-02T00:00:00"⟩

/-! ## Store lemmas -/

theorem Store.lookup_upsert_self (store : Store) (k : String) (v : Product) :
    (store.upsert k v).lookup k = some v := by
  induction store with
  | nil => simp [upsert, lookup]
  | cons hd tl ih =>
    obtain ⟨k2, v2⟩ := hd
    by_cases h : k2 = k <;> simp [upsert, lookup, h, ih]

theorem Store.lookup_upsert_ne (store : Store) (k k2 : String) (v : Product)
    (h : k ≠ k2) : (store.upsert k v).lookup k2 = store.lookup k2 := by
  induction store with
  | nil => simp [upsert, lookup, h]
  | cons hd tl ih =>
    obtain ⟨k3, v3⟩ := hd
    have h5 : k2 ≠ k := Ne.symm h
    by_cases h3 : k3 = k
    · simp [upsert, lookup, h3, h]
    · by_cases h4 : k3 = k2 <;> simp [upsert, lookup, h3, h4, h5, ih]

theorem Store.lookup_eq_none_of_not_mem_keys (store : Store) (k : String)
    (h : k ∉ store.keys) : store.lookup k = none := by
  induction store with
  | nil => simp [lookup]
  | cons hd tl ih =>
    obtain ⟨k2, v2⟩ := hd
    simp only [keys, List.map_cons, List.mem_cons] at h
    push_neg at h
    have hne : k2 ≠ k := fun e => h.1 e.symm
    simp [lookup, hne, ih (by simpa [keys] using h.2)]

theorem Store.lookup_erase_self (store : Store) (k : String)
    (h : store.NodupKeys) : (store.erase k).lookup k = none := by
  induction store with
  | nil => simp [erase, lookup]
  | cons hd tl ih =>
    obtain ⟨k2, v2⟩ := hd
    simp only [NodupKeys, keys, List.map_cons, List.nodup_cons] at h
    by_cases hk : k2 = k
    · subst hk
      simpa [erase] using
        lookup_eq_none_of_not_mem_keys tl k2 (by simpa [keys] using h.1)
    · simp [erase, hk, lookup, ih h.2]

theorem Store.mem_values_of_lookup (store : Store) (k : String) (p : Product)
    (h : store.lookup k = some p) : p ∈ store.values := by
  induction store with
  | nil => simp [lookup] at h
  | cons hd tl ih =>
    obtain ⟨k2, v2⟩ := hd
    by_cases hk : k2 = k
    · simp only [lookup, if_pos hk, Option.some.injEq] at h
      simp [values, h]
    · simp only [lookup, if_neg hk] at h
      simp [values, ih h]
      exact Or.inr (by simpa [values] using ih h)

/-! ## syncMerge lemmas -/

theorem syncMerge_lookup_of_not_mem (products : List Product) (store : Store)
    (k : String) (h : ∀ q ∈ products, q.id ≠ k) :
    (syncMerge products store).lookup k = store.lookup k := by
  induction products generalizing store with
  | nil => rfl
  | cons a ps ih =>
    have ha : a.id ≠ k := h a (List.mem_cons_self a ps)
    have step : syncMerge (a :: ps) store = syncMerge ps (store.upsert a.id a) := rfl
    rw [step, ih (store.upsert a.id a) (fun q hq => h q (List.mem_cons_of_mem a hq)),
      Store.lookup_upsert_ne store a.id k a ha]

theorem syncMerge_lookup_key (products : List Product) (store : Store)
    (k : String) (h : ∃ q ∈ products, q.id = k) :
    ∃ q ∈ products, q.id = k ∧
      (syncMerge products store).lookup k = some q := by
  induction products generalizing store with
  | nil => simp at h
  | cons a ps ih =>
    have step : syncMerge (a :: ps) store = syncMerge ps (store.upsert a.id a) := rfl
    by_cases htail : ∃ q ∈ ps, q.id = k
    · obtain ⟨q, hq, hqid, hqlook⟩ := ih (store.upsert a.id a) htail
      exact ⟨q, List.mem_cons_of_mem a hq, hqid, by rw [step]; exact hqlook⟩
    · push_neg at htail
      obtain ⟨q, hq, hqid⟩ := h
      rcases List.mem_cons.mp hq with hqa | hqps
      · subst hqa
        refine ⟨q, List.mem_cons_self q ps, hqid, ?_⟩
        rw [step, syncMerge_lookup_of_not_mem ps (store.upsert q.id q) k htail,
          ← hqid, Store.lookup_upsert_self]
      · exact absurd hqid (htail q hqps)

/-! ## list_products lemmas -/

theorem list_products_eq_pySlice (product_type : Option String) (l : Int)
    (store : Store) :
    list_products product_type (some l) store =
      pySlice l (filteredEntries product_type store) := rfl

theorem list_products_all (store : Store) :
    list_products none (some (store.length : Int)) store = store.values := by
  rw [list_products_eq_pySlice]
  have hf : filteredEntries none store = store.values := rfl
  rw [hf]
  unfold pySlice
  rw [if_pos (Int.natCast_nonneg store.length)]
  rw [Int.toNat_natCast]
  exact List.take_of_length_le (by simp [Store.values])

/-! ## persist_to_database lemma -/

theorem persist_all_fail (remote : Nat → PostOutcome)
    (hfail : ∀ i, postSucceeds (remote i) = false) :
    persist_to_database remote = ⟨3, [2, 4], false⟩ := by
  simp [persist_to_database, persistGo, hfail 0, hfail 1, hfail 2]

/-! ## Claim C1 — POST /cache/sync -/

/-- Claim C1 counterexample: the spec says a non-2xx status from the remote
bulk list yields HTTP 500 (SyncError); on a 404 response the handler
instead falls through to HTTP 200 with `synced` 0 and an unchanged cache. -/
theorem sync_cache_claim_counterexample :
    (300 : Nat) ≤ 404 ∧
    sync_cache (.response 404 [pWidget]) [] = ⟨200, some 0, some 0, []⟩ := by
  decide

/-- Claim C1 (amended): `Resync` returns HTTP 500 exactly when the remote
bulk-list call raises; on a response with status exactly 200 every fetched
record is upserted into the Entry Store (each fetched id resolves to a
fetched record with that id afterwards) and the count fetched is reported
with HTTP 200; a response with any other status — non-2xx, or 2xx other
than 200 — yields HTTP 200 with `synced` 0 and leaves the Entry Store
unchanged. -/
theorem sync_cache_spec (store : Store) (products : List Product)
    (status : Nat) (hstatus : status ≠ 200) :
    sync_cache .exc store = ⟨500, none, none, store⟩ ∧
    sync_cache (.response 200 products) store =
      ⟨200, some products.length, some (syncMerge products store).length,
        syncMerge products store⟩ ∧
    (∀ p ∈ products, ∃ q ∈ products, q.id = p.id ∧
      (syncMerge products store).lookup p.id = some q) ∧
    sync_cache (.response status products) store =
      ⟨200, some 0, some store.length, store⟩ := by
  refine ⟨rfl, rfl, ?_, ?_⟩
  · intro p hp
    exact syncMerge_lookup_key products store p.id ⟨p, hp, rfl⟩
  · simp [sync_cache, hstatus]

/-- Claim C1 witness: the amended theorem applied at a concrete store,
product list and non-200 status. -/
theorem sync_cache_spec_witness :
    (404 : Nat) ≠ 200 ∧
    (sync_cache .exc [] = ⟨500, none, none, []⟩ ∧
     sync_cache (.response 200 [pWidget]) [] =
       ⟨200, some [pWidget].length, some (syncMerge [pWidget] []).length,
         syncMerge [pWidget] []⟩ ∧
     (∀ p ∈ [pWidget], ∃ q ∈ [pWidget], q.id = p.id ∧
       (syncMerge [pWidget] []).lookup p.id = some q) ∧
     sync_cache (.response 404 [pWidget]) [] =
       ⟨200, some 0, some (List.length ([] : Store)), []⟩) :=
  ⟨by decide, sync_cache_spec [] [pWidget] 404 (by decide)⟩

/-! ## Claim C2 — create propagation retry loop -/

/-- Claim C2 counterexample: the spec says delivery stops early on the
first 2xx response; on a 204 response — a 2xx status — the task instead
treats every attempt as failed, issues all 3 POSTs with both backoff waits,
and returns failure. -/
theorem persist_claim_counterexample :
    ((200 : Nat) ≤ 204 ∧ (204 : Nat) < 300) ∧
    persist_to_database (fun _ => .response 204) = ⟨3, [2, 4], false⟩ := by
  decide

/-- Claim C2 (amended): each create propagation makes at most 3 POST
attempts and stops on the first response whose status is 200 or 201 (a
failed attempt is any other outcome: any other status — other 2xx
included — or a timeout, connection error, or other exception); a failure
on attempt 1 is followed by a 2-second wait, a failure on attempt 2 by a
4-second wait, and no wait follows the final attempt. -/
theorem persist_to_database_spec (remote : Nat → PostOutcome) :
    persist_to_database remote =
      if postSucceeds (remote 0) then ⟨1, [], true⟩
      else if postSucceeds (remote 1) then ⟨2, [2], true⟩
      else if postSucceeds (remote 2) then ⟨3, [2, 4], true⟩
      else ⟨3, [2, 4], false⟩ := by
  cases h0 : postSucceeds (remote 0) <;>
    cases h1 : postSucceeds (remote 1) <;>
      cases h2 : postSucceeds (remote 2) <;>
        simp [persist_to_database, persistGo, h0, h1, h2]

/-! ## Claim C3 — exhausted propagation leaves the Entry Store untouched -/

/-- Claim C3: when a create's propagation task fails all 3 delivery
attempts, the Entry Store is untouched by the task: the entry written by
`create_product` is still there with the same contents, `get_product`
still returns it from the cache without a remote call, and it still
appears in the listing (shown at a limit covering the whole store). -/
theorem persist_failure_preserves_cache (d : CreateReq) (n : String)
    (hname : d.name = some n) (hne : n ≠ "") (product_id created_at : String)
    (store : Store) (remote : Nat → PostOutcome)
    (hfail : ∀ i, postSucceeds (remote i) = false) (g : RemoteGet) :
    let cr := create_product (some d) product_id created_at store
    let store2 := persist_to_database_store remote cr.store
    (persist_to_database remote).success = false ∧
    (persist_to_database remote).attempts = 3 ∧
    store2 = cr.store ∧
    ∃ p : Product, cr.body = some p ∧
      get_product product_id store2 g = ⟨200, some p, store2, 0⟩ ∧
      p ∈ list_products none (some (store2.length : Int)) store2 := by
  have hpersist : persist_to_database remote = ⟨3, [2, 4], false⟩ :=
    persist_all_fail remote hfail
  have hcr : create_product (some d) product_id created_at store =
      ⟨201,
        some ⟨product_id, n, d.type.getD "physical", d.metadata.getD [], created_at⟩,
        store.upsert product_id
          ⟨product_id, n, d.type.getD "physical", d.metadata.getD [], created_at⟩,
        some (product_id,
          ⟨product_id, n, d.type.getD "physical", d.metadata.getD [], created_at⟩)⟩ := by
    simp [create_product, hname, hne]
  simp only [hcr, persist_to_database_store, hpersist]
  refine ⟨trivial, trivial, trivial,
    ⟨product_id, n, d.type.getD "physical", d.metadata.getD [], created_at⟩, rfl,
    ?_, ?_⟩
  · simp [get_product, Store.lookup_upsert_self]
  · rw [list_products_all]
    exact Store.mem_values_of_lookup _ product_id _
      (Store.lookup_upsert_self store product_id _)

/-- Claim C3 witness: the theorem applied to a concrete create whose
propagation times out on all three attempts. -/
theorem persist_failure_preserves_cache_witness :
    let cr := create_product (some ⟨some "Widget", none, none⟩) "prod_1" "t0" []
    let store2 := persist_to_database_store (fun _ => PostOutcome.timeout) cr.store
    (persist_to_database (fun _ => PostOutcome.timeout)).success = false ∧
    (persist_to_database (fun _ => PostOutcome.timeout)).attempts = 3 ∧
    store2 = cr.store ∧
    ∃ p : Product, cr.body = some p ∧
      get_product "prod_1" store2 RemoteGet.exc = ⟨200, some p, store2, 0⟩ ∧
      p ∈ list_products none (some (store2.length : Int)) store2 :=
  persist_failure_preserves_cache ⟨some "Widget", none, none⟩ "Widget" rfl
    (by decide) "prod_1" "t0" [] (fun _ => PostOutcome.timeout) (fun _ => rfl)
    RemoteGet.exc

/-! ## Claim C4 — create validation -/

/-- Claim C4: a create whose body is missing/empty or whose `name` field is
absent or the empty string returns HTTP 400, leaves the Entry Store
unchanged, and starts no propagation task. -/
theorem create_missing_name_rejected (data : Option CreateReq)
    (product_id created_at : String) (store : Store)
    (h : data = none ∨
      ∃ d, data = some d ∧ (d.name = none ∨ d.name = some "")) :
    create_product data product_id created_at store = ⟨400, none, store, none⟩ := by
  rcases h with rfl | ⟨d, rfl, hd | hd⟩
  · rfl
  · simp [create_product, hd]
  · simp [create_product, hd]

/-- Claim C4 witness: the theorem applied to a request with an empty name
against a nonempty store. -/
theorem create_missing_name_rejected_witness :
    create_product (some ⟨some "", none, none⟩) "prod_1" "t0"
        [("prod_2", pGadget)] =
      ⟨400, none, [("prod_2", pGadget)], none⟩ :=
  create_missing_name_rejected (some ⟨some "", none, none⟩) "prod_1" "t0"
    [("prod_2", pGadget)] (Or.inr ⟨_, rfl, Or.inr rfl⟩)

/-! ## Claim C5 — read-your-write -/

/-- Claim C5: after a valid create returns record `r` with HTTP 201, an
immediate `get_product r.id` on the resulting store returns `r` from the
cache with HTTP 200 and no remote call, whatever the remote service would
answer. -/
theorem create_then_get_roundtrip (d : CreateReq) (n : String)
    (hname : d.name = some n) (hne : n ≠ "") (product_id created_at : String)
    (store : Store) :
    ∃ p : Product,
      (create_product (some d) product_id created_at store).status = 201 ∧
      (create_product (some d) product_id created_at store).body = some p ∧
      p.id = product_id ∧
      ∀ g : RemoteGet,
        get_product p.id (create_product (some d) product_id created_at store).store g =
          ⟨200, some p, (create_product (some d) product_id created_at store).store, 0⟩ := by
  have hcr : create_product (some d) product_id created_at store =
      ⟨201,
        some ⟨product_id, n, d.type.getD "physical", d.metadata.getD [], created_at⟩,
        store.upsert product_id
          ⟨product_id, n, d.type.getD "physical", d.metadata.getD [], created_at⟩,
        some (product_id,
          ⟨product_id, n, d.type.getD "physical", d.metadata.getD [], created_at⟩)⟩ := by
    simp [create_product, hname, hne]
  rw [hcr]
  refine ⟨⟨product_id, n, d.type.getD "physical", d.metadata.getD [], created_at⟩,
    rfl, rfl, rfl, ?_⟩
  intro g
  simp [get_product, Store.lookup_upsert_self]

/-- Claim C5 witness: the theorem applied to a concrete valid create. -/
theorem create_then_get_roundtrip_witness :
    ∃ p : Product,
      (create_product (some ⟨some "Widget", none, none⟩) "prod_1" "t0" []).status = 201 ∧
      (create_product (some ⟨some "Widget", none, none⟩) "prod_1" "t0" []).body = some p ∧
      p.id = "prod_1" ∧
      ∀ g : RemoteGet,
        get_product p.id
            (create_product (some ⟨some "Widget", none, none⟩) "prod_1" "t0" []).store g =
          ⟨200, some p,
            (create_product (some ⟨some "Widget", none, none⟩) "prod_1" "t0" []).store, 0⟩ :=
  create_then_get_roundtrip ⟨some "Widget", none, none⟩ "Widget" rfl (by decide)
    "prod_1" "t0" []

/-! ## Claim C6 — GET /products filtering and limit -/

/-- Claim C6 counterexample: with the filter parameter present but equal to
the empty string, the handler applies no filter at all — it returns an
entry whose category is "physical", where the claim requires exactly the
entries whose category equals the (empty) filter value, i.e. none. -/
theorem list_empty_filter_counterexample :
    list_products (some "") none [("prod_1", pWidget)] = [pWidget] ∧
    pWidget.type ≠ "" := by
  decide

/-- Claim C6 (amended): for every non-empty filter value `c` and every
nonnegative limit, the listing returns exactly the cached entries whose
category (`type` field) equals `c`, in insertion order, truncated to the
first `limit` entries; with no filter it returns all entries under the same
truncation; an omitted limit defaults to 100.  A present-but-empty filter
value is falsy in the handler and is treated as no filter. -/
theorem list_products_spec (store : Store) (c : String) (hc : c ≠ "")
    (limit : Nat) :
    list_products (some c) (some (limit : Int)) store =
      (store.values.filter (fun p => p.type = c)).take limit ∧
    list_products none (some (limit : Int)) store = store.values.take limit ∧
    list_products (some c) none store =
      (store.values.filter (fun p => p.type = c)).take 100 ∧
    list_products none none store = store.values.take 100 := by
  refine ⟨?_, ?_, ?_, ?_⟩ <;>
    simp [list_products, truthy, hc, pySlice, Int.natCast_nonneg, Int.toNat_natCast]

/-- Claim C6 witness: the amended theorem applied at a concrete two-entry
store, non-empty filter and concrete limit. -/
theorem list_products_spec_witness :
    let store : Store := [("prod_1", pWidget), ("prod_2", pGadget)]
    list_products (some "digital") (some ((1 : Nat) : Int)) store =
      (store.values.filter (fun p => p.type = "digital")).take 1 ∧
    list_products none (some ((1 : Nat) : Int)) store = store.values.take 1 ∧
    list_products (some "digital") none store =
      (store.values.filter (fun p => p.type = "digital")).take 100 ∧
    list_products none none store = store.values.take 100 :=
  list_products_spec [("prod_1", pWidget), ("prod_2", pGadget)] "digital"
    (by decide) 1

/-! ## Claim C7 — DELETE /products/{id} -/

/-- Claim C7 counterexample: the success body of a delete carries the keys
`status`, `product_id`, `name`, `timestamp` — there is no `id` key, where
the claim requires the body shape {status, id, name, timestamp}. -/
theorem delete_body_key_counterexample :
    (delete_product "prod_1" "t9" [("prod_1", pWidget)]).status = 200 ∧
    (delete_product "prod_1" "t9" [("prod_1", pWidget)]).body.map Prod.fst =
      ["status", "product_id", "name", "timestamp"] ∧
    "id" ∉ (delete_product "prod_1" "t9" [("prod_1", pWidget)]).body.map Prod.fst := by
  decide

/-- Claim C7 (amended): for an id present in the Entry Store, delete
removes the entry and returns HTTP 200 with body
{status: "deleted", product_id, name, timestamp} — the identifier is
carried under the key `product_id`, not `id` — where `name` is the deleted
record's name; for an id absent from the local store it returns 404 with
the store unchanged (no remote lookup is attempted by the delete path). -/
theorem delete_product_spec (product_id now : String) (store : Store) :
    (∀ p : Product, store.lookup product_id = some p →
      delete_product product_id now store =
        ⟨200,
          [("status", "deleted"), ("product_id", product_id),
           ("name", p.name), ("timestamp", now)],
          store.erase product_id, some product_id⟩) ∧
    (store.lookup product_id = none →
      delete_product product_id now store =
        ⟨404, [("error", "Product not found")], store, none⟩) := by
  constructor
  · intro p hp
    simp [delete_product, hp]
  · intro hp
    simp [delete_product, hp]

/-- Claim C7 witness: both branches of the theorem at concrete stores. -/
theorem delete_product_spec_witness :
    delete_product "prod_1" "t9" [("prod_1", pWidget)] =
      ⟨200,
        [("status", "deleted"), ("product_id", "prod_1"),
         ("name", pWidget.name), ("timestamp", "t9")],
        Store.erase [("prod_1", pWidget)] "prod_1", some "prod_1"⟩ ∧
    delete_product "zz" "t9" [] =
      ⟨404, [("error", "Product not found")], [], none⟩ :=
  ⟨(delete_product_spec "prod_1" "t9" [("prod_1", pWidget)]).1 pWidget rfl,
   (delete_product_spec "zz" "t9" []).2 rfl⟩

/-! ## Claim C8 — delete propagation -/

/-- Claim C8: after a successful local delete, the delete propagation task
issues exactly one remote DELETE call, never raises back to its caller, and
leaves the Entry Store untouched — so the deleted id still misses the local
store whatever the remote outcome was, including remote failure. -/
theorem delete_propagation_no_reinsert (product_id now : String)
    (store : Store) (hnodup : store.NodupKeys) (p : Product)
    (hp : store.lookup product_id = some p) (remote : RemoteDelete) :
    (delete_product product_id now store).status = 200 ∧
    (delete_from_database product_id remote
        (delete_product product_id now store).store).calls = 1 ∧
    (delete_from_database product_id remote
        (delete_product product_id now store).store).raised = false ∧
    (delete_from_database product_id remote
        (delete_product product_id now store).store).store =
      (delete_product product_id now store).store ∧
    (delete_from_database product_id remote
        (delete_product product_id now store).store).store.lookup product_id = none := by
  have hdel : (delete_product product_id now store).store = store.erase product_id := by
    simp [delete_product, hp]
  have hdb : ∀ s : Store, (delete_from_database product_id remote s).calls = 1 ∧
      (delete_from_database product_id remote s).raised = false ∧
      (delete_from_database product_id remote s).store = s := by
    intro s
    cases remote with
    | response st =>
      by_cases h : st = 200 ∨ st = 204 <;> simp [delete_from_database, h]
    | exc => simp [delete_from_database]
  refine ⟨by simp [delete_product, hp], (hdb _).1, (hdb _).2.1, (hdb _).2.2, ?_⟩
  rw [(hdb _).2.2, hdel]
  exact Store.lookup_erase_self store product_id hnodup

/-- Claim C8 witness: the theorem at a one-entry store and a failing remote
delete (HTTP 500). -/
theorem delete_propagation_no_reinsert_witness :
    (delete_product "prod_1" "t9" [("prod_1", pWidget)]).status = 200 ∧
    (delete_from_database "prod_1" (.response 500)
        (delete_product "prod_1" "t9" [("prod_1", pWidget)]).store).calls = 1 ∧
    (delete_from_database "prod_1" (.response 500)
        (delete_product "prod_1" "t9" [("prod_1", pWidget)]).store).raised = false ∧
    (delete_from_database "prod_1" (.response 500)
        (delete_product "prod_1" "t9" [("prod_1", pWidget)]).store).store =
      (delete_product "prod_1" "t9" [("prod_1", pWidget)]).store ∧
    (delete_from_database "prod_1" (.response 500)
        (delete_product "prod_1" "t9" [("prod_1", pWidget)]).store).store.lookup
      "prod_1" = none :=
  delete_propagation_no_reinsert "prod_1" "t9" [("prod_1", pWidget)]
    (by decide) pWidget (by decide) (.response 500)

/-! ## Claim C9 — read-through on GET miss -/

/-- Claim C9 counterexample: the spec says any 2xx response from the remote
point-get is upserted and returned with HTTP 200; on a 201 response — a
2xx status — the handler instead returns 404 and leaves the store
unchanged. -/
theorem get_readthrough_201_counterexample :
    ((200 : Nat) ≤ 201 ∧ (201 : Nat) < 300) ∧
    get_product "prod_9" [] (.response 201 pWidget) = ⟨404, none, [], 1⟩ := by
  decide

/-- Claim C9 (amended): on a local miss, exactly one remote point-get is
issued; only a response with status exactly 200 leads to the fetched record
being upserted into the Entry Store and returned with HTTP 200; every other
outcome — any other status, other 2xx included, or a raised
error/timeout — yields 404 with the store unchanged, indistinguishable
from a plain miss. -/
theorem get_product_miss_spec (product_id : String) (store : Store)
    (hmiss : store.lookup product_id = none) (p : Product) (status : Nat)
    (hstatus : status ≠ 200) :
    get_product product_id store (.response 200 p) =
      ⟨200, some p, store.upsert product_id p, 1⟩ ∧
    get_product product_id store (.response status p) = ⟨404, none, store, 1⟩ ∧
    get_product product_id store .exc = ⟨404, none, store, 1⟩ ∧
    ∀ g : RemoteGet, (get_product product_id store g).remoteCalls = 1 := by
  refine ⟨by simp [get_product, hmiss], by simp [get_product, hmiss, hstatus],
    by simp [get_product, hmiss], ?_⟩
  intro g
  cases g with
  | response st q => by_cases h : st = 200 <;> simp [get_product, hmiss, h]
  | exc => simp [get_product, hmiss]

/-- Claim C9 witness: the amended theorem at the empty store with a
concrete record and a concrete non-200 status. -/
theorem get_product_miss_spec_witness :
    get_product "prod_9" [] (.response 200 pWidget) =
      ⟨200, some pWidget, Store.upsert [] "prod_9" pWidget, 1⟩ ∧
    get_product "prod_9" [] (.response 503 pWidget) = ⟨404, none, [], 1⟩ ∧
    get_product "prod_9" [] .exc = ⟨404, none, [], 1⟩ ∧
    ∀ g : RemoteGet, (get_product "prod_9" [] g).remoteCalls = 1 :=
  get_product_miss_spec "prod_9" [] rfl pWidget 503 (by decide)

/-! ## Claim C10 — negative limit slice semantics -/

/-- Claim C10: with a negative limit, the listing is not a bounded prefix
but follows the Python slice `products[:limit]`: the (filtered) entries
with the last `|limit|` of them dropped; in particular a limit of -1 on `k`
matching entries returns `k - 1` of them. -/
theorem list_products_negative_limit (store : Store)
    (product_type : Option String) (m : Nat) :
    list_products product_type (some (-((m : Int) + 1))) store =
      (filteredEntries product_type store).take
        ((filteredEntries product_type store).length - (m + 1)) ∧
    (list_products product_type (some (-1 : Int)) store).length =
      (filteredEntries product_type store).length - 1 := by
  have hneg : ∀ k : Nat, ¬ (0 : Int) ≤ -((k : Int) + 1) := by intro k; omega
  have habs : ∀ k : Nat, (-((k : Int) + 1)).natAbs = k + 1 := by intro k; omega
  constructor
  · rw [list_products_eq_pySlice]
    unfold pySlice
    rw [if_neg (hneg m), habs m]
  · rw [show (-1 : Int) = -(((0 : Nat) : Int) + 1) by norm_num,
      list_products_eq_pySlice]
    unfold pySlice
    rw [if_neg (hneg 0), habs 0]
    simp only [List.length_take]
    omega

end ProductsService
